import Mathlib

/-!
Shallow embedding of the rustpos backend (src/backend/src/main.rs and
src/backend/src/printer.rs).

Modelling conventions:
* `Uuid` values are modelled as `Nat` (opaque identifiers).
* `DateTime<Utc>` timestamps are modelled as `Nat` (opaque instants).
* `f64` currency amounts are modelled as `Rat` (exact arithmetic).
* `i32` quantities are modelled as `Int`.
* The SQLite database is a record of three tables (lists of rows); each SQL
  statement becomes an explicit transformation of that record.  `id` columns
  are PRIMARY KEYs in the schema; where a proof needs that uniqueness it is
  taken as the `WfDb` hypothesis.
* Each axum handler becomes a function `Db → args → Db × Except AppError r`:
  the returned `Db` is the database after the statements the handler actually
  executed (error paths that run before any write return the input `Db`).
* Receipt emission (printer.rs) is an external effect whose outcome the close
  handler discards (`let _ = ...`); it is modelled as a function parameter
  whose result is discarded.
-/

namespace RustPos

/-- Item row (src/backend/src/main.rs, struct Item). -/
structure Item where
  id : Nat
  name : String
  description : Option String
  price : Rat
  category_id : Nat
  sku : Option String
  in_stock : Bool
  created_at : Nat
  updated_at : Nat
  deriving DecidableEq, Repr

/-- Transaction row (struct Transaction); status is one of
"open", "closed", "cancelled". -/
structure Transaction where
  id : Nat
  customer_name : Option String
  status : String
  total : Rat
  paid_amount : Option Rat
  change_amount : Option Rat
  created_at : Nat
  updated_at : Nat
  closed_at : Option Nat
  deriving DecidableEq, Repr

/-- TransactionItem row (struct TransactionItem). -/
structure TransactionItem where
  id : Nat
  transaction_id : Nat
  item_id : Nat
  quantity : Int
  unit_price : Rat
  total_price : Rat
  created_at : Nat
  deriving DecidableEq, Repr

/-- The SQLite database state: the three tables the transaction engine touches. -/
structure Db where
  items : List Item
  transactions : List Transaction
  transaction_items : List TransactionItem
  deriving DecidableEq, Repr

/-- enum AppError.  `Database` stands for `AppError::Database(_)`. -/
inductive AppError where
  | Database : AppError
  | NotFound : AppError
  | BadRequest : String → AppError
  | Internal : String → AppError
  deriving DecidableEq, Repr

/-- The error every status-guarded handler returns when the transaction is
missing or not open (the spec's `InvalidState`). -/
def invalidStateErr : AppError := .BadRequest "Transaction not found or not open"

/-- The error add/update return for an out-of-stock item (the spec's `Unavailable`). -/
def unavailableErr : AppError := .BadRequest "Item is out of stock"

/-- The error close returns when paid_amount < total (the spec's `InsufficientPayment`). -/
def insufficientPaymentErr : AppError := .BadRequest "Insufficient payment amount"

/-- Well-formedness the schema enforces: `id` is a PRIMARY KEY in each table. -/
def WfDb (db : Db) : Prop :=
  (db.transactions.map (fun t => t.id)).Nodup ∧
  (db.items.map (fun i => i.id)).Nodup ∧
  (db.transaction_items.map (fun ti => ti.id)).Nodup

instance : DecidablePred WfDb := fun db => by
  unfold WfDb; infer_instance

/-- SQL `SELECT * FROM transactions WHERE id = ?` (first row). -/
def findTransaction (db : Db) (id : Nat) : Option Transaction :=
  db.transactions.find? (fun t => t.id == id)

/-- SQL `SELECT * FROM transactions WHERE id = ? AND status = 'open'`. -/
def findOpenTransaction (db : Db) (id : Nat) : Option Transaction :=
  db.transactions.find? (fun t => t.id == id && t.status == "open")

/-- SQL `SELECT * FROM items WHERE id = ?`. -/
def findItem (db : Db) (id : Nat) : Option Item :=
  db.items.find? (fun i => i.id == id)

/-- The TransactionItem rows belonging to one transaction. -/
def linesOf (db : Db) (tid : Nat) : List TransactionItem :=
  db.transaction_items.filter (fun ti => ti.transaction_id == tid)

/-- SQL `SELECT COALESCE(SUM(total_price), 0) FROM transaction_items WHERE
transaction_id = ?` (the empty sum is 0). -/
def linesTotal (db : Db) (tid : Nat) : Rat :=
  ((linesOf db tid).map (fun ti => ti.total_price)).sum

/-- fn update_transaction_total: recompute `total` from the current lines and
refresh `updated_at`, for the row `WHERE id = ?`. -/
def update_transaction_total (db : Db) (transaction_id : Nat) (now : Nat) : Db :=
  let s := linesTotal db transaction_id
  { db with transactions := db.transactions.map (fun t =>
      if t.id == transaction_id then { t with total := s, updated_at := now } else t) }

/-- struct AddTransactionItemDto. -/
structure AddTransactionItemDto where
  item_id : Nat
  quantity : Int
  deriving DecidableEq, Repr

/-- struct UpdateTransactionItemDto (its item_id field is never read by the
handler, which uses the path item_id instead). -/
structure UpdateTransactionItemDto where
  item_id : Nat
  quantity : Int
  deriving DecidableEq, Repr

/-- struct UpdateTransactionDto. -/
structure UpdateTransactionDto where
  customer_name : Option String
  deriving DecidableEq, Repr

/-- struct CloseTransactionDto. -/
structure CloseTransactionDto where
  paid_amount : Rat
  deriving DecidableEq, Repr

/-- struct CloseTransactionResponse. -/
structure CloseTransactionResponse where
  transaction : Transaction
  change_amount : Rat
  deriving DecidableEq, Repr

/-- The TransactionItem row the add-item INSERT writes: price snapshot,
total_price = price × quantity. -/
def mkTransactionItem (transaction_id : Nat) (dto : AddTransactionItemDto)
    (price : Rat) (newId now : Nat) : TransactionItem :=
  { id := newId
    transaction_id := transaction_id
    item_id := dto.item_id
    quantity := dto.quantity
    unit_price := price
    total_price := price * (dto.quantity : Rat)
    created_at := now }

/-- fn add_transaction_item, everything after the open-status check: item
lookup, stock check, unconditional INSERT of the new line, total recompute.
`newId` stands for the freshly generated Uuid, `now` for `Utc::now()`. -/
def add_transaction_item_rest (db : Db) (transaction_id : Nat)
    (dto : AddTransactionItemDto) (newId : Nat) (now : Nat) :
    Db × Except AppError TransactionItem :=
  match findItem db dto.item_id with
  | none => (db, .error .NotFound)
  | some item =>
    if !item.in_stock then (db, .error unavailableErr)
    else
      let ti : TransactionItem := mkTransactionItem transaction_id dto item.price newId now
      let db1 : Db := { db with transaction_items := db.transaction_items ++ [ti] }
      (update_transaction_total db1 transaction_id now, .ok ti)

/-- fn add_transaction_item: open-status check, then `add_transaction_item_rest`. -/
def add_transaction_item (db : Db) (transaction_id : Nat)
    (dto : AddTransactionItemDto) (newId : Nat) (now : Nat) :
    Db × Except AppError TransactionItem :=
  match findOpenTransaction db transaction_id with
  | none => (db, .error invalidStateErr)
  | some _ => add_transaction_item_rest db transaction_id dto newId now

/-- The WHERE clause `transaction_id = ? AND item_id = ?` shared by the
line-item UPDATE and DELETE statements. -/
def tiMatches (transaction_id item_id : Nat) (ti : TransactionItem) : Bool :=
  ti.transaction_id == transaction_id && ti.item_id == item_id

/-- The SET clause of the line-item UPDATE: quantity, re-snapshotted
unit_price, total_price = price × quantity, and created_at = now. -/
def tiRewrite (dto : UpdateTransactionItemDto) (price : Rat) (now : Nat)
    (ti : TransactionItem) : TransactionItem :=
  { ti with
    quantity := dto.quantity
    unit_price := price
    total_price := price * (dto.quantity : Rat)
    created_at := now }

/-- The transaction_items table after the line-item UPDATE statement. -/
def tiUpdateWrite (db : Db) (transaction_id item_id : Nat)
    (dto : UpdateTransactionItemDto) (price : Rat) (now : Nat) : Db :=
  { db with transaction_items := db.transaction_items.map (fun ti =>
      if tiMatches transaction_id item_id ti then tiRewrite dto price now ti else ti) }

/-- fn update_transaction_item: open check, item lookup, stock check, then the
single UPDATE of the lines matching (transaction_id, item_id) which rewrites
quantity, unit_price, total_price and created_at; zero affected rows is
NotFound; finally recompute the total.  (The handler reads the path item_id,
never dto.item_id.) -/
def update_transaction_item (db : Db) (transaction_id : Nat) (item_id : Nat)
    (dto : UpdateTransactionItemDto) (now : Nat) :
    Db × Except AppError TransactionItem :=
  match findOpenTransaction db transaction_id with
  | none => (db, .error invalidStateErr)
  | some _ =>
    match findItem db item_id with
    | none => (db, .error .NotFound)
    | some item =>
      if !item.in_stock then (db, .error unavailableErr)
      else
        match db.transaction_items.find? (tiMatches transaction_id item_id) with
        | none =>
          (tiUpdateWrite db transaction_id item_id dto item.price now,
           .error .NotFound)
        | some ti0 =>
          (update_transaction_total
            (tiUpdateWrite db transaction_id item_id dto item.price now)
            transaction_id now,
           .ok (tiRewrite dto item.price now ti0))

/-- The transaction_items table after the line-item DELETE statement. -/
def tiDeleteWrite (db : Db) (transaction_id item_id : Nat) : Db :=
  { db with transaction_items :=
      db.transaction_items.filter (fun ti => !tiMatches transaction_id item_id ti) }

/-- fn remove_transaction_item: open check, DELETE of the matching lines,
NotFound when zero rows were affected, then recompute the total. -/
def remove_transaction_item (db : Db) (transaction_id : Nat) (item_id : Nat)
    (now : Nat) : Db × Except AppError Unit :=
  match findOpenTransaction db transaction_id with
  | none => (db, .error invalidStateErr)
  | some _ =>
    if (db.transaction_items.filter (tiMatches transaction_id item_id)).length == 0 then
      (tiDeleteWrite db transaction_id item_id, .error .NotFound)
    else
      (update_transaction_total (tiDeleteWrite db transaction_id item_id)
        transaction_id now, .ok ())

/-- fn update_transaction (rename): open check, then UPDATE of customer_name
and updated_at `WHERE id = ?`, returning the updated row. -/
def update_transaction (db : Db) (id : Nat) (dto : UpdateTransactionDto)
    (now : Nat) : Db × Except AppError Transaction :=
  match findOpenTransaction db id with
  | none => (db, .error invalidStateErr)
  | some _ =>
    let db1 : Db := { db with transactions := db.transactions.map (fun t =>
        if t.id == id then
          { t with
            customer_name := dto.customer_name
            updated_at := now }
        else t) }
    match findTransaction db1 id with
    | none => (db1, .error .Database)
    | some t1 => (db1, .ok t1)

/-- The receipt line items the close handler reads back (JOIN of
transaction_items with items, giving name, quantity and unit price; the
narrowing casts to u32/f32 are elided). -/
def receiptLines (db : Db) (tid : Nat) : List (String × Int × Rat) :=
  (linesOf db tid).filterMap (fun ti =>
    (findItem db ti.item_id).map (fun i => (i.name, ti.quantity, ti.unit_price)))

/-- The settlement UPDATE of fn close_transaction: sets status = 'closed',
paid_amount, change_amount, closed_at = now, updated_at = now — note its
`WHERE id = ?` has NO status guard. -/
def closeSettlementWrite (db : Db) (id : Nat) (paid change : Rat) (now : Nat) : Db :=
  { db with transactions := db.transactions.map (fun u =>
      if u.id == id then
        { u with
          status := "closed"
          paid_amount := some paid
          change_amount := some change
          closed_at := some now
          updated_at := now }
      else u) }

/-- fn close_transaction: open check, payment check, then the settlement
UPDATE — note its `WHERE id = ?` has no status guard — followed by the
best-effort receipt emission whose outcome is discarded, and the response.
`emission` abstracts find_printer + print_receipt (printer.rs). -/
def close_transaction (db : Db) (id : Nat) (dto : CloseTransactionDto) (now : Nat)
    (emission : List (String × Int × Rat) → Rat → Rat → Except String Unit) :
    Db × Except AppError CloseTransactionResponse :=
  match findOpenTransaction db id with
  | none => (db, .error invalidStateErr)
  | some t =>
    if dto.paid_amount < t.total then (db, .error insufficientPaymentErr)
    else
      match findTransaction
          (closeSettlementWrite db id dto.paid_amount (dto.paid_amount - t.total) now) id with
      | none =>
        (closeSettlementWrite db id dto.paid_amount (dto.paid_amount - t.total) now,
         .error .Database)
      | some t1 =>
        if t1.status == "closed" then
          let _ := emission
            (receiptLines
              (closeSettlementWrite db id dto.paid_amount (dto.paid_amount - t.total) now) id)
            dto.paid_amount (dto.paid_amount - t.total)
          (closeSettlementWrite db id dto.paid_amount (dto.paid_amount - t.total) now,
           .ok { transaction := t1, change_amount := dto.paid_amount - t.total })
        else
          (closeSettlementWrite db id dto.paid_amount (dto.paid_amount - t.total) now,
           .ok { transaction := t1, change_amount := dto.paid_amount - t.total })

/-- fn cancel_transaction: a single conditional UPDATE
`WHERE id = ? AND status = 'open'`; zero affected rows is reported as the
not-found-or-not-open error. -/
def cancel_transaction (db : Db) (id : Nat) (now : Nat) :
    Db × Except AppError Transaction :=
  match findOpenTransaction db id with
  | none => (db, .error invalidStateErr)
  | some t =>
    let db1 : Db := { db with transactions := db.transactions.map (fun u =>
        if u.id == id && u.status == "open" then
          { u with
            status := "cancelled"
            updated_at := now }
        else u) }
    (db1, .ok { t with
                status := "cancelled"
                updated_at := now })

/-- struct UpdateItemDto. -/
structure UpdateItemDto where
  name : Option String
  description : Option String
  price : Option Rat
  category_id : Option Nat
  sku : Option String
  in_stock : Option Bool
  deriving DecidableEq, Repr

/-- fn update_item (catalog): read the item, overlay the dto's `Some` fields,
refresh updated_at, then UPDATE the item row.  It touches only the items
table. -/
def update_item (db : Db) (id : Nat) (dto : UpdateItemDto) (now : Nat) :
    Db × Except AppError Item :=
  match findItem db id with
  | none => (db, .error .NotFound)
  | some item0 =>
    let item1 : Item :=
      { item0 with
        name := dto.name.getD item0.name
        description := (match dto.description with
          | some d => some d
          | none => item0.description)
        price := dto.price.getD item0.price
        category_id := dto.category_id.getD item0.category_id
        sku := (match dto.sku with
          | some s => some s
          | none => item0.sku)
        in_stock := dto.in_stock.getD item0.in_stock
        updated_at := now }
    let db1 : Db := { db with items := db.items.map (fun i =>
        if i.id == id then
          { i with
            name := item1.name
            description := item1.description
            price := item1.price
            category_id := item1.category_id
            sku := item1.sku
            in_stock := item1.in_stock
            updated_at := item1.updated_at }
        else i) }
    (db1, .ok item1)

/-- struct ItemSalesReport: one per-item aggregate row of the sales report. -/
structure ItemSalesReport where
  item_id : Nat
  item_name : String
  category_name : String
  quantity_sold : Int
  total_revenue : Rat
  average_price : Rat
  transaction_count : Int
  deriving DecidableEq, Repr

/-- struct ReportSummary. -/
structure ReportSummary where
  total_revenue : Rat
  total_items_sold : Int
  total_transactions : Int
  average_transaction_value : Rat
  top_selling_item : Option String
  top_revenue_item : Option String
  deriving DecidableEq, Repr

/-- Three-way comparison on `Int` (Rust `i64::cmp`). -/
def icmp (a b : Int) : Ordering :=
  if a < b then .lt else if b < a then .gt else .eq

/-- Three-way comparison on `Rat` (Rust `f64::partial_cmp(..).unwrap()` on
non-NaN values). -/
def qcmp (a b : Rat) : Ordering :=
  if a < b then .lt else if b < a then .gt else .eq

/-- Rust `Iterator::max_by(cmp)`: fold that keeps the accumulator only when it
compares strictly greater, so among equal maxima the LAST element wins.
`max_by_key(f)` is `rustMaxBy (fun a b => cmp (f a) (f b))`. -/
def rustMaxBy (cmp : α → α → Ordering) : List α → Option α
  | [] => none
  | x :: xs => some (xs.foldl (fun acc y => if cmp acc y = .gt then acc else y) x)

/-- Modelled from the spec: "ties broken by first-encountered in the
aggregator's result ordering" — the FIRST element attaining the maximum
(the accumulator is kept unless a later element is strictly greater). -/
def firstMaxBy (cmp : α → α → Ordering) : List α → Option α
  | [] => none
  | x :: xs => some (xs.foldl (fun acc y => if cmp y acc = .gt then y else acc) x)

/-- The last element attaining the maximum, by structural recursion: the
head supersedes the best of the tail only when strictly greater. -/
def lastMaxBy (cmp : α → α → Ordering) : List α → Option α
  | [] => none
  | x :: xs =>
    match lastMaxBy cmp xs with
    | none => some x
    | some m => some (if cmp x m = .gt then x else m)

/-- The pure tail of fn generate_sales_report: the summary computed from the
per-item aggregate rows (already fetched revenue-descending) and the distinct
closed-transaction count of the window. -/
def reportSummary (items : List ItemSalesReport) (transaction_count : Int) :
    ReportSummary :=
  let total_revenue : Rat := (items.map (fun i => i.total_revenue)).sum
  let total_items_sold : Int := (items.map (fun i => i.quantity_sold)).sum
  let average_transaction_value : Rat :=
    if transaction_count > 0 then total_revenue / (transaction_count : Rat) else 0
  let top_selling_item :=
    (rustMaxBy (fun a b => icmp a.quantity_sold b.quantity_sold) items).map
      (fun i => i.item_name)
  let top_revenue_item :=
    (rustMaxBy (fun a b => qcmp a.total_revenue b.total_revenue) items).map
      (fun i => i.item_name)
  { total_revenue := total_revenue
    total_items_sold := total_items_sold
    total_transactions := transaction_count
    average_transaction_value := average_transaction_value
    top_selling_item := top_selling_item
    top_revenue_item := top_revenue_item }

/-- One line-item mutation on a fixed transaction id, with the request data
and the handler's fresh Uuid / clock reading. -/
inductive TxOp where
  | add : AddTransactionItemDto → Nat → Nat → TxOp
  | upd : Nat → UpdateTransactionItemDto → Nat → TxOp
  | rem : Nat → Nat → TxOp
  deriving Repr

/-- The database after running one line-item mutation (error paths leave the
lines and totals untouched, as the handlers do). -/
def applyTxOp (db : Db) (tid : Nat) : TxOp → Db
  | .add dto newId now => (add_transaction_item db tid dto newId now).1
  | .upd iid dto now => (update_transaction_item db tid iid dto now).1
  | .rem iid now => (remove_transaction_item db tid iid now).1

/-- The database after a sequence of line-item mutations on one transaction. -/
def applyTxOps (db : Db) (tid : Nat) (ops : List TxOp) : Db :=
  ops.foldl (fun d op => applyTxOp d tid op) db

/-- The mutation completed successfully (the handler returned Ok). -/
def txOpOk (db : Db) (tid : Nat) : TxOp → Prop
  | .add dto newId now => ∃ ti, (add_transaction_item db tid dto newId now).2 = .ok ti
  | .upd iid dto now => ∃ ti, (update_transaction_item db tid iid dto now).2 = .ok ti
  | .rem iid now => (remove_transaction_item db tid iid now).2 = .ok ()

/-- The derived-total invariant for one transaction id: every stored row with
that id carries the sum of its current lines' total_price. -/
def totalInvariant (db : Db) (tid : Nat) : Prop :=
  ∀ t ∈ db.transactions, t.id = tid → t.total = linesTotal db tid

/-! ### Helper lemmas -/

theorem find?_eq_some_of_unique {α : Type} {p : α → Bool} {l : List α} {a : α}
    (ha : a ∈ l) (hpa : p a = true) (huniq : ∀ b ∈ l, p b = true → b = a) :
    l.find? p = some a := by
  induction l with
  | nil => cases ha
  | cons x xs ih =>
    by_cases hx : p x = true
    · have hxa : x = a := huniq x (List.mem_cons_self x xs) hx
      rw [List.find?_cons_of_pos _ hx, hxa]
    · have hx' : p x = false := by
        cases hpx : p x
        · rfl
        · exact absurd hpx hx
      rw [List.find?_cons_of_neg _ (by simp [hx'])]
      rcases List.mem_cons.mp ha with h | h
      · exact absurd (h ▸ hpa) (h ▸ hx)
      · exact ih h (fun b hb hpb => huniq b (List.mem_cons_of_mem _ hb) hpb)

/-- Unpacking a successful open-status check, using the PRIMARY KEY
uniqueness of transaction ids. -/
theorem findOpenTransaction_spec (db : Db) (id : Nat) (t : Transaction)
    (hwf : WfDb db) (h : findOpenTransaction db id = some t) :
    t ∈ db.transactions ∧ t.id = id ∧ t.status = "open" ∧
    (∀ u ∈ db.transactions, u.id = id → u = t) ∧
    findTransaction db id = some t := by
  have hmem := List.mem_of_find?_eq_some h
  have hp := List.find?_some h
  simp only [Bool.and_eq_true, beq_iff_eq] at hp
  have huniq : ∀ u ∈ db.transactions, u.id = id → u = t := by
    intro u hu hid
    exact List.inj_on_of_nodup_map hwf.1 hu hmem (by rw [hid, hp.1])
  refine ⟨hmem, hp.1, hp.2, huniq, ?_⟩
  exact find?_eq_some_of_unique hmem (by simp [hp.1])
    (fun b hb hpb => huniq b hb (by simpa using hpb))

theorem update_transaction_total_items (db : Db) (tid now : Nat) :
    (update_transaction_total db tid now).transaction_items =
      db.transaction_items := rfl

theorem linesTotal_update_transaction_total (db : Db) (tid' tid now : Nat) :
    linesTotal (update_transaction_total db tid' now) tid = linesTotal db tid := rfl

/-- fn update_transaction_total establishes the derived-total invariant for
the transaction it is scoped to. -/
theorem update_transaction_total_invariant (db : Db) (tid now : Nat) :
    totalInvariant (update_transaction_total db tid now) tid := by
  intro t ht htid
  rw [linesTotal_update_transaction_total]
  simp only [update_transaction_total, List.mem_map] at ht
  obtain ⟨u, _, rfl⟩ := ht
  by_cases h : u.id = tid
  · simp [h]
  · simp [h] at htid

theorem add_transaction_item_ok_invariant (db : Db) (tid : Nat)
    (dto : AddTransactionItemDto) (newId now : Nat) (ti : TransactionItem) :
    (add_transaction_item db tid dto newId now).2 = .ok ti →
    totalInvariant (add_transaction_item db tid dto newId now).1 tid := by
  unfold add_transaction_item add_transaction_item_rest
  split
  · intro h; simp at h
  · split
    · intro h; simp at h
    · split
      · intro h; simp at h
      · intro _; exact update_transaction_total_invariant _ _ _

theorem update_transaction_item_ok_invariant (db : Db) (tid iid : Nat)
    (dto : UpdateTransactionItemDto) (now : Nat) (ti : TransactionItem) :
    (update_transaction_item db tid iid dto now).2 = .ok ti →
    totalInvariant (update_transaction_item db tid iid dto now).1 tid := by
  unfold update_transaction_item
  split
  · intro h; simp at h
  · split
    · intro h; simp at h
    · split
      · intro h; simp at h
      · split
        · intro h; simp at h
        · intro _; exact update_transaction_total_invariant _ _ _

theorem remove_transaction_item_ok_invariant (db : Db) (tid iid : Nat)
    (now : Nat) :
    (remove_transaction_item db tid iid now).2 = .ok () →
    totalInvariant (remove_transaction_item db tid iid now).1 tid := by
  unfold remove_transaction_item
  split
  · intro h; simp at h
  · split
    · intro h; simp at h
    · intro _; exact update_transaction_total_invariant _ _ _

/-- A conditional rewrite whose guard matches no element is the identity. -/
theorem map_noop {α : Type} (p : α → Bool) (f : α → α) (l : List α)
    (h : ∀ a ∈ l, p a = false) :
    l.map (fun a => if p a then f a else a) = l := by
  induction l with
  | nil => rfl
  | cons x xs ih =>
    simp only [List.map_cons, h x (List.mem_cons_self x xs), if_neg]
    rw [ih (fun a ha => h a (List.mem_cons_of_mem _ ha))]
    simp

/-- fn update_item writes only the items table. -/
theorem update_item_frame (db : Db) (id : Nat) (dto : UpdateItemDto) (now : Nat) :
    (update_item db id dto now).1.transaction_items = db.transaction_items ∧
    (update_item db id dto now).1.transactions = db.transactions := by
  unfold update_item
  cases findItem db id with
  | none => exact ⟨rfl, rfl⟩
  | some item0 => exact ⟨rfl, rfl⟩

/-- A successful fn update_transaction_item re-snapshots the current catalog
price into the returned line. -/
theorem update_transaction_item_snapshot (db : Db) (tid iid : Nat)
    (dto : UpdateTransactionItemDto) (now : Nat) (db2 : Db)
    (ti2 : TransactionItem) (item : Item)
    (h : update_transaction_item db tid iid dto now = (db2, .ok ti2))
    (hitem : findItem db iid = some item) :
    ti2.unit_price = item.price ∧ ti2.total_price = item.price * (dto.quantity : Rat) := by
  unfold update_transaction_item at h
  revert h
  split
  · intro h
    exact absurd (congrArg Prod.snd h) (by simp)
  · split
    · intro h
      exact absurd (congrArg Prod.snd h) (by simp)
    next item0 heq =>
      rw [hitem] at heq
      injection heq with heq
      subst heq
      split
      · intro h
        exact absurd (congrArg Prod.snd h) (by simp)
      · split
        · intro h
          exact absurd (congrArg Prod.snd h) (by simp)
        · intro h
          have h2 := congrArg Prod.snd h
          simp only [Except.ok.injEq] at h2
          rw [← h2]
          exact ⟨rfl, rfl⟩

/-- The settlement UPDATE rewrites exactly the unique row with the given id;
reading that row back returns it with the closed-state fields set. -/
theorem findTransaction_closeSettlementWrite (db : Db) (id : Nat)
    (t : Transaction) (paid change : Rat) (now : Nat)
    (hmem : t ∈ db.transactions) (hid : t.id = id)
    (huniq : ∀ u ∈ db.transactions, u.id = id → u = t) :
    findTransaction (closeSettlementWrite db id paid change now) id =
      some { t with
             status := "closed"
             paid_amount := some paid
             change_amount := some change
             closed_at := some now
             updated_at := now } := by
  apply find?_eq_some_of_unique
  · simp only [closeSettlementWrite, List.mem_map]
    exact ⟨t, hmem, by simp [hid]⟩
  · simp [hid]
  · intro b hb hpb
    simp only [closeSettlementWrite, List.mem_map] at hb
    obtain ⟨u, hu, rfl⟩ := hb
    by_cases h : u.id = id
    · rw [huniq u hu h]
      simp [hid]
    · rw [if_neg (by simpa using h)] at hpb ⊢
      simp at hpb
      exact absurd hpb h

/-! ### C1 -/

/-- C1: for every sequence of add-item, update-item and remove-item operations
on an open transaction, after each operation that completes successfully the
transaction's stored `total` equals the sum of `total_price` over its current
TransactionItem lines (0 when there are none, since the empty sum is 0). -/
theorem transaction_total_invariant_after_mutation (db : Db) (tid : Nat)
    (ops : List TxOp) (op : TxOp)
    (h : txOpOk (applyTxOps db tid ops) tid op) :
    totalInvariant (applyTxOp (applyTxOps db tid ops) tid op) tid := by
  cases op with
  | add dto newId now =>
    obtain ⟨ti, hti⟩ := h
    exact add_transaction_item_ok_invariant _ _ _ _ _ _ hti
  | upd iid dto now =>
    obtain ⟨ti, hti⟩ := h
    exact update_transaction_item_ok_invariant _ _ _ _ _ _ hti
  | rem iid now =>
    exact remove_transaction_item_ok_invariant _ _ _ _ h

/-! ### Concrete fixtures for witnesses and counterexamples -/

/-- A concrete in-stock catalog item. -/
def wItem : Item :=
  { id := 10
    name := "Coffee"
    description := none
    price := 5
    category_id := 1
    sku := none
    in_stock := true
    created_at := 0
    updated_at := 0 }

/-- A concrete open transaction with no lines and total 0. -/
def wTx : Transaction :=
  { id := 1
    customer_name := none
    status := "open"
    total := 0
    paid_amount := none
    change_amount := none
    created_at := 0
    updated_at := 0
    closed_at := none }

/-- A concrete database: one in-stock item, one open empty transaction. -/
def wDb : Db :=
  { items := [wItem]
    transactions := [wTx]
    transaction_items := [] }

/-- A concrete receipt-emission outcome: no printer was found. -/
def wEmission : List (String × Int × Rat) → Rat → Rat → Except String Unit :=
  fun _ _ _ => .error "No ESC/POS printer found on serial ports"

/-- A concrete add-item request. -/
def wAddDto : AddTransactionItemDto := { item_id := 10, quantity := 2 }

/-- C1 witness: the invariant theorem applied after one concrete add-item. -/
theorem transaction_total_invariant_after_mutation_witness :
    txOpOk (applyTxOps wDb 1 []) 1 (.add wAddDto 100 7) ∧
    totalInvariant (applyTxOp (applyTxOps wDb 1 []) 1 (.add wAddDto 100 7)) 1 :=
  ⟨⟨_, rfl⟩,
   transaction_total_invariant_after_mutation wDb 1 [] (.add wAddDto 100 7) ⟨_, rfl⟩⟩

/-! ### C2 -/

/-- C2: closing an open transaction fails with InsufficientPayment and leaves
the database unchanged when paid_amount < total; otherwise it succeeds,
sets status = closed, paid_amount, change_amount = paid_amount − total ≥ 0,
closed_at and updated_at, and reports that change amount to the caller. -/
theorem close_transaction_payment_spec (db : Db) (id : Nat)
    (dto : CloseTransactionDto) (now : Nat)
    (emission : List (String × Int × Rat) → Rat → Rat → Except String Unit)
    (t : Transaction) (hwf : WfDb db) (ht : findOpenTransaction db id = some t) :
    (dto.paid_amount < t.total →
      close_transaction db id dto now emission = (db, .error insufficientPaymentErr)) ∧
    (t.total ≤ dto.paid_amount →
      ∃ db1 t1,
        close_transaction db id dto now emission =
          (db1, .ok { transaction := t1, change_amount := dto.paid_amount - t.total }) ∧
        t1.status = "closed" ∧
        t1.paid_amount = some dto.paid_amount ∧
        t1.change_amount = some (dto.paid_amount - t.total) ∧
        t1.closed_at = some now ∧
        t1.updated_at = now ∧
        t1.id = t.id ∧ t1.customer_name = t.customer_name ∧
        t1.total = t.total ∧ t1.created_at = t.created_at ∧
        0 ≤ dto.paid_amount - t.total ∧
        t1 ∈ db1.transactions) := by
  obtain ⟨hmem, hid, -, huniq, -⟩ := findOpenTransaction_spec db id t hwf ht
  constructor
  · intro hlt
    simp only [close_transaction, ht, if_pos hlt]
  · intro hle
    have hnlt : ¬ dto.paid_amount < t.total := not_lt.mpr hle
    have hfw := findTransaction_closeSettlementWrite db id t dto.paid_amount
      (dto.paid_amount - t.total) now hmem hid huniq
    refine ⟨closeSettlementWrite db id dto.paid_amount (dto.paid_amount - t.total) now,
      { t with
        status := "closed"
        paid_amount := some dto.paid_amount
        change_amount := some (dto.paid_amount - t.total)
        closed_at := some now
        updated_at := now }, ?_, rfl, rfl, rfl, rfl, rfl, rfl, rfl, rfl, rfl,
      sub_nonneg.mpr hle, ?_⟩
    · simp [close_transaction, ht, if_neg hnlt, hfw]
    · simp only [closeSettlementWrite, List.mem_map]
      exact ⟨t, hmem, by simp [hid]⟩

/-- C2 witness: closing the concrete open transaction (total 0) with
paid_amount 0 succeeds with change 0 and a closed transaction. -/
theorem close_transaction_payment_spec_witness :
    WfDb wDb ∧ wTx.total ≤ (0 : Rat) ∧
    ∃ db1 t1,
      close_transaction wDb 1 { paid_amount := 0 } 9 wEmission =
        (db1, .ok { transaction := t1, change_amount := (0 : Rat) - wTx.total }) ∧
      t1.status = "closed" := by
  refine ⟨by decide, le_refl 0, ?_⟩
  obtain ⟨db1, t1, heq, hstatus, -⟩ :=
    (close_transaction_payment_spec wDb 1 { paid_amount := 0 } 9 wEmission wTx
      (by decide) rfl).2 (le_refl 0)
  exact ⟨db1, t1, heq, hstatus⟩

/-! ### C3 -/

/-- A closed or cancelled transaction is never found by the status-guarded
lookup, given PRIMARY KEY uniqueness of transaction ids. -/
theorem findOpenTransaction_eq_none_of_terminal (db : Db) (id : Nat)
    (t : Transaction) (hwf : WfDb db) (ht : findTransaction db id = some t)
    (hterm : t.status = "closed" ∨ t.status = "cancelled") :
    findOpenTransaction db id = none := by
  have hmem := List.mem_of_find?_eq_some ht
  have hp := List.find?_some ht
  simp only [beq_iff_eq] at hp
  unfold findOpenTransaction
  rw [List.find?_eq_none]
  intro u hu
  simp only [Bool.and_eq_true, beq_iff_eq, not_and]
  intro huid
  have : u = t := List.inj_on_of_nodup_map hwf.1 hu hmem (by rw [huid, hp])
  subst this
  rcases hterm with h | h <;> simp [h]

/-- C3: once a transaction is closed or cancelled, every subsequent add-item,
update-item, remove-item, rename, close and cancel call on its id fails with
the InvalidState error and returns the database unchanged. -/
theorem terminal_transaction_mutations_fail (db : Db) (id : Nat)
    (t : Transaction) (hwf : WfDb db) (ht : findTransaction db id = some t)
    (hterm : t.status = "closed" ∨ t.status = "cancelled") :
    (∀ dto newId now,
      add_transaction_item db id dto newId now = (db, .error invalidStateErr)) ∧
    (∀ iid dto now,
      update_transaction_item db id iid dto now = (db, .error invalidStateErr)) ∧
    (∀ iid now,
      remove_transaction_item db id iid now = (db, .error invalidStateErr)) ∧
    (∀ dto now,
      update_transaction db id dto now = (db, .error invalidStateErr)) ∧
    (∀ dto now emission,
      close_transaction db id dto now emission = (db, .error invalidStateErr)) ∧
    (∀ now,
      cancel_transaction db id now = (db, .error invalidStateErr)) := by
  have hnone := findOpenTransaction_eq_none_of_terminal db id t hwf ht hterm
  refine ⟨?_, ?_, ?_, ?_, ?_, ?_⟩
  · intro dto newId now
    simp only [add_transaction_item, hnone]
  · intro iid dto now
    simp only [update_transaction_item, hnone]
  · intro iid now
    simp only [remove_transaction_item, hnone]
  · intro dto now
    simp only [update_transaction, hnone]
  · intro dto now emission
    simp only [close_transaction, hnone]
  · intro now
    simp only [cancel_transaction, hnone]

/-- A concrete closed transaction. -/
def wClosedTx : Transaction :=
  { id := 2
    customer_name := none
    status := "closed"
    total := 0
    paid_amount := some 0
    change_amount := some 0
    created_at := 0
    updated_at := 1
    closed_at := some 1 }

/-- A concrete database whose only transaction is closed. -/
def wClosedDb : Db :=
  { items := [wItem]
    transactions := [wClosedTx]
    transaction_items := [] }

/-- C3 witness: adding an item to the concrete closed transaction fails with
InvalidState and leaves the database unchanged. -/
theorem terminal_transaction_mutations_fail_witness :
    WfDb wClosedDb ∧ findTransaction wClosedDb 2 = some wClosedTx ∧
    wClosedTx.status = "closed" ∧
    add_transaction_item wClosedDb 2 wAddDto 50 3 = (wClosedDb, .error invalidStateErr) :=
  ⟨by decide, rfl, rfl,
   (terminal_transaction_mutations_fail wClosedDb 2 wClosedTx (by decide) rfl
     (Or.inl rfl)).1 wAddDto 50 3⟩

/-! ### C4 -/

/-- C4: the close operation's result — the returned database, the committed
Transaction and the reported change_amount — is identical for every possible
receipt-emission behaviour: any emission failure after the settlement write is
swallowed and alters nothing. -/
theorem close_transaction_emission_independent (db : Db) (id : Nat)
    (dto : CloseTransactionDto) (now : Nat)
    (e1 e2 : List (String × Int × Rat) → Rat → Rat → Except String Unit) :
    close_transaction db id dto now e1 = close_transaction db id dto now e2 := by
  unfold close_transaction
  cases findOpenTransaction db id with
  | none => rfl
  | some t =>
    by_cases hlt : dto.paid_amount < t.total
    · simp [hlt]
    · simp only [if_neg hlt]

/-! ### C5 -/

/-- C5: adding an item whose in_stock flag is false always fails with the
Unavailable error and returns the database unchanged — no line is created and
the transaction total is untouched. -/
theorem add_item_out_of_stock_unavailable (db : Db) (tid : Nat)
    (dto : AddTransactionItemDto) (newId now : Nat) (t : Transaction) (item : Item)
    (hopen : findOpenTransaction db tid = some t)
    (hitem : findItem db dto.item_id = some item)
    (hstock : item.in_stock = false) :
    add_transaction_item db tid dto newId now = (db, .error unavailableErr) := by
  simp [add_transaction_item, add_transaction_item_rest, hopen, hitem, hstock]

/-- A concrete out-of-stock catalog item. -/
def wItemOut : Item :=
  { id := 11
    name := "Tea"
    description := none
    price := 3
    category_id := 1
    sku := none
    in_stock := false
    created_at := 0
    updated_at := 0 }

/-- A concrete database with an out-of-stock item and an open transaction. -/
def wOutDb : Db :=
  { items := [wItemOut]
    transactions := [wTx]
    transaction_items := [] }

/-- C5 witness: adding the concrete out-of-stock item fails with Unavailable
and the database is unchanged. -/
theorem add_item_out_of_stock_unavailable_witness :
    findOpenTransaction wOutDb 1 = some wTx ∧
    findItem wOutDb 11 = some wItemOut ∧
    wItemOut.in_stock = false ∧
    add_transaction_item wOutDb 1 { item_id := 11, quantity := 4 } 77 5 =
      (wOutDb, .error unavailableErr) :=
  ⟨rfl, rfl, rfl,
   add_item_out_of_stock_unavailable wOutDb 1 { item_id := 11, quantity := 4 } 77 5
     wTx wItemOut rfl rfl rfl⟩

/-! ### C6 -/

/-- A concrete catalog-update request that changes only the price. -/
def wPriceDto : UpdateItemDto :=
  { name := none
    description := none
    price := some 9
    category_id := none
    sku := none
    in_stock := none }

/-- C6: a line created by add-item snapshots the catalog item's price at that
moment into unit_price (total_price = price × quantity); a later update_item
call touches only the items table, so every existing line's unit_price and
total_price and every transaction's stored total are unchanged; and a line
re-written by update-item likewise snapshots the then-current price. -/
theorem snapshot_price_immune_to_catalog_update (db : Db) (tid : Nat)
    (dto : AddTransactionItemDto) (newId now : Nat) (db1 : Db)
    (ti : TransactionItem) (item : Item) (uid : Nat) (udto : UpdateItemDto)
    (unow : Nat)
    (hitem : findItem db dto.item_id = some item)
    (hadd : add_transaction_item db tid dto newId now = (db1, .ok ti)) :
    ti.unit_price = item.price ∧
    ti.total_price = item.price * (dto.quantity : Rat) ∧
    ti ∈ db1.transaction_items ∧
    (update_item db1 uid udto unow).1.transaction_items = db1.transaction_items ∧
    (update_item db1 uid udto unow).1.transactions = db1.transactions ∧
    (∀ db' tid' iid' udto' now' db2 ti2 it,
      update_transaction_item db' tid' iid' udto' now' = (db2, Except.ok ti2) →
      findItem db' iid' = some it → ti2.unit_price = it.price) := by
  unfold add_transaction_item add_transaction_item_rest at hadd
  revert hadd
  split
  · intro hadd
    exact absurd (congrArg Prod.snd hadd) (by simp)
  · split
    · intro hadd
      exact absurd (congrArg Prod.snd hadd) (by simp)
    next item0 heq =>
      rw [hitem] at heq
      injection heq with heq
      subst heq
      split
      · intro hadd
        exact absurd (congrArg Prod.snd hadd) (by simp)
      · intro hadd
        have hdb := congrArg Prod.fst hadd
        have hti := congrArg Prod.snd hadd
        simp only [Except.ok.injEq] at hti
        subst hti
        simp only at hdb
        subst hdb
        refine ⟨rfl, rfl, ?_, (update_item_frame _ uid udto unow).1,
          (update_item_frame _ uid udto unow).2, ?_⟩
        · rw [update_transaction_total_items]
          simp
        · intro db' tid' iid' udto' now' db2 ti2 it h1 h2
          exact (update_transaction_item_snapshot db' tid' iid' udto' now'
            db2 ti2 it h1 h2).1

/-- The line produced by the concrete witness add-item call. -/
def wTi6 : TransactionItem :=
  { id := 100
    transaction_id := 1
    item_id := 10
    quantity := 2
    unit_price := wItem.price
    total_price := wItem.price * ((2 : Int) : Rat)
    created_at := 7 }

/-- C6 witness: the snapshot/immunity theorem applied to one concrete
add-item followed by one concrete catalog price change. -/
theorem snapshot_price_immune_to_catalog_update_witness :
    findItem wDb 10 = some wItem ∧
    add_transaction_item wDb 1 wAddDto 100 7 =
      ((add_transaction_item wDb 1 wAddDto 100 7).1, .ok wTi6) ∧
    wTi6.unit_price = wItem.price ∧
    (update_item (add_transaction_item wDb 1 wAddDto 100 7).1 10 wPriceDto 9).1.transaction_items =
      (add_transaction_item wDb 1 wAddDto 100 7).1.transaction_items := by
  have h := snapshot_price_immune_to_catalog_update wDb 1 wAddDto 100 7
    (add_transaction_item wDb 1 wAddDto 100 7).1 wTi6 wItem 10 wPriceDto 9 rfl rfl
  exact ⟨rfl, rfl, h.1, h.2.2.2.1⟩

/-! ### C7 -/

/-- A sales-report row for item "A": 5 sold, revenue 50. -/
def r7A : ItemSalesReport :=
  { item_id := 1
    item_name := "A"
    category_name := "Drinks"
    quantity_sold := 5
    total_revenue := 50
    average_price := 10
    transaction_count := 1 }

/-- A sales-report row for item "B": also 5 sold, revenue 30. -/
def r7B : ItemSalesReport :=
  { item_id := 2
    item_name := "B"
    category_name := "Drinks"
    quantity_sold := 5
    total_revenue := 30
    average_price := 6
    transaction_count := 1 }

/-- C7 counterexample: with rows A and B tying at quantity_sold = 5, the
summary reports item "B" (the last-encountered maximum), not the
first-encountered one "A" that the claim prescribes. -/
theorem report_top_item_tie_cex :
    (reportSummary [r7A, r7B] 2).top_selling_item ≠
      (firstMaxBy (fun a b => icmp a.quantity_sold b.quantity_sold) [r7A, r7B]).map
        (fun i => i.item_name) := by
  decide

/-- The three-way comparison `if a < b then lt else if b < a then gt else eq`
is `gt` exactly when `b < a`. -/
theorem cmpo_gt_iff {K : Type} [LinearOrder K] (a b : K) :
    (if a < b then Ordering.lt else if b < a then Ordering.gt else Ordering.eq) =
      .gt ↔ b < a := by
  split_ifs with h1 h2
  · constructor
    · intro h; exact absurd h (by decide)
    · intro h; exact absurd h1 (lt_asymm h)
  · simp [h2]
  · constructor
    · intro h; exact absurd h (by decide)
    · intro h; exact absurd h h2

theorem icmp_gt_iff (a b : Int) : icmp a b = .gt ↔ b < a := cmpo_gt_iff a b

theorem qcmp_gt_iff (a b : Rat) : qcmp a b = .gt ↔ b < a := cmpo_gt_iff a b

/-- The keep-later combine of Rust's max_by is associative when the
comparison's strict-greater part and its complement are transitive. -/
theorem keepLater_assoc {α : Type} (cmp : α → α → Ordering)
    (hgt : ∀ a b c, cmp a b = .gt → cmp b c = .gt → cmp a c = .gt)
    (hngt : ∀ a b c, cmp a b ≠ .gt → cmp b c ≠ .gt → cmp a c ≠ .gt)
    (x y m : α) :
    (if cmp (if cmp x y = .gt then x else y) m = .gt
      then (if cmp x y = .gt then x else y) else m) =
    (if cmp x (if cmp y m = .gt then y else m) = .gt
      then x else (if cmp y m = .gt then y else m)) := by
  by_cases hxy : cmp x y = .gt
  · by_cases hym : cmp y m = .gt
    · simp [hxy, hym, hgt x y m hxy hym]
    · simp [hxy, hym]
  · by_cases hym : cmp y m = .gt
    · simp [hxy, hym]
    · simp [hxy, hym, hngt x y m hxy hym]

/-- The fold inside `rustMaxBy` computes the last maximum. -/
theorem foldl_keepLater_eq {α : Type} (cmp : α → α → Ordering)
    (hgt : ∀ a b c, cmp a b = .gt → cmp b c = .gt → cmp a c = .gt)
    (hngt : ∀ a b c, cmp a b ≠ .gt → cmp b c ≠ .gt → cmp a c ≠ .gt) :
    ∀ (xs : List α) (x : α),
      xs.foldl (fun acc y => if cmp acc y = .gt then acc else y) x =
        (match lastMaxBy cmp xs with
         | none => x
         | some m => if cmp x m = .gt then x else m) := by
  intro xs
  induction xs with
  | nil => intro x; rfl
  | cons y ys ih =>
    intro x
    rw [List.foldl_cons, ih]
    cases hys : lastMaxBy cmp ys with
    | none => simp [lastMaxBy, hys]
    | some m =>
      simp only [lastMaxBy, hys]
      exact keepLater_assoc cmp hgt hngt x y m

/-- Rust's `max_by` equals the last-maximum function. -/
theorem rustMaxBy_eq_lastMaxBy {α : Type} (cmp : α → α → Ordering)
    (hgt : ∀ a b c, cmp a b = .gt → cmp b c = .gt → cmp a c = .gt)
    (hngt : ∀ a b c, cmp a b ≠ .gt → cmp b c ≠ .gt → cmp a c ≠ .gt)
    (l : List α) :
    rustMaxBy cmp l = lastMaxBy cmp l := by
  cases l with
  | nil => rfl
  | cons x xs =>
    simp only [rustMaxBy]
    rw [foldl_keepLater_eq cmp hgt hngt xs x]
    cases hxs : lastMaxBy cmp xs with
    | none => simp [lastMaxBy, hxs]
    | some m => simp [lastMaxBy, hxs]

/-- C7 amended: in the sales-report summary, a tie for maximum quantity sold
(respectively maximum revenue) is broken in favour of the LAST-encountered
row in the aggregator's result ordering, not the first: the reported
top_selling_item and top_revenue_item are the last maxima. -/
theorem report_top_items_last_max (items : List ItemSalesReport) (tc : Int) :
    (reportSummary items tc).top_selling_item =
      (lastMaxBy (fun a b => icmp a.quantity_sold b.quantity_sold) items).map
        (fun i => i.item_name) ∧
    (reportSummary items tc).top_revenue_item =
      (lastMaxBy (fun a b => qcmp a.total_revenue b.total_revenue) items).map
        (fun i => i.item_name) := by
  constructor
  · show (rustMaxBy (fun a b => icmp a.quantity_sold b.quantity_sold) items).map
      (fun i => i.item_name) = _
    rw [rustMaxBy_eq_lastMaxBy]
    · intro a b c hab hbc
      rw [icmp_gt_iff] at hab hbc ⊢
      exact lt_trans hbc hab
    · intro a b c hab hbc
      have hab' : ¬ b.quantity_sold < a.quantity_sold :=
        fun h => hab ((icmp_gt_iff _ _).mpr h)
      have hbc' : ¬ c.quantity_sold < b.quantity_sold :=
        fun h => hbc ((icmp_gt_iff _ _).mpr h)
      exact fun h => (not_lt.mpr (le_trans (not_lt.mp hab') (not_lt.mp hbc')))
        ((icmp_gt_iff _ _).mp h)
  · show (rustMaxBy (fun a b => qcmp a.total_revenue b.total_revenue) items).map
      (fun i => i.item_name) = _
    rw [rustMaxBy_eq_lastMaxBy]
    · intro a b c hab hbc
      rw [qcmp_gt_iff] at hab hbc ⊢
      exact lt_trans hbc hab
    · intro a b c hab hbc
      have hab' : ¬ b.total_revenue < a.total_revenue :=
        fun h => hab ((qcmp_gt_iff _ _).mpr h)
      have hbc' : ¬ c.total_revenue < b.total_revenue :=
        fun h => hbc ((qcmp_gt_iff _ _).mpr h)
      exact fun h => (not_lt.mpr (le_trans (not_lt.mp hab') (not_lt.mp hbc')))
        ((qcmp_gt_iff _ _).mp h)

/-! ### C8 -/

/-- A concrete existing line of the open transaction, created at time 0. -/
def wLine : TransactionItem :=
  { id := 200
    transaction_id := 1
    item_id := 10
    quantity := 1
    unit_price := 5
    total_price := 5
    created_at := 0 }

/-- A concrete database with an open transaction holding one line. -/
def wLineDb : Db :=
  { items := [wItem]
    transactions := [wTx]
    transaction_items := [wLine] }

/-- A concrete update-item request. -/
def wUpdDto : UpdateTransactionItemDto := { item_id := 10, quantity := 3 }

/-- C8 counterexample: updating the line (created_at 0) at time 5 succeeds
and rewrites the stored and returned line's created_at to 5, contradicting
the claim that created_at is unchanged. -/
theorem update_transaction_item_created_at_cex :
    ((update_transaction_item wLineDb 1 10 wUpdDto 5).2.map
      (fun ti => ti.created_at)) = Except.ok 5 ∧
    ((update_transaction_item wLineDb 1 10 wUpdDto 5).1.transaction_items.map
      (fun ti => ti.created_at)) = [5] ∧
    wLineDb.transaction_items.map (fun ti => ti.created_at) = [0] ∧
    (5 : Nat) ≠ 0 :=
  ⟨rfl, rfl, rfl, by decide⟩

/-- C8 amended: on an open transaction with an in-stock item, update-item
replaces the matching line's quantity, unit_price (re-snapshotting the
current catalog price) and total_price, AND refreshes its created_at to the
mutation time; id, transaction_id and item_id are unchanged, all
non-matching lines survive, and the total is recomputed; with no matching
line it fails with NotFound and returns the database unchanged. -/
theorem update_transaction_item_spec (db : Db) (tid iid : Nat)
    (dto : UpdateTransactionItemDto) (now : Nat) (t : Transaction) (item : Item)
    (hopen : findOpenTransaction db tid = some t)
    (hitem : findItem db iid = some item)
    (hstock : item.in_stock = true) :
    (∀ ln, db.transaction_items.find? (tiMatches tid iid) = some ln →
      ∃ db2 ti2, update_transaction_item db tid iid dto now = (db2, .ok ti2) ∧
        ti2.quantity = dto.quantity ∧
        ti2.unit_price = item.price ∧
        ti2.total_price = item.price * (dto.quantity : Rat) ∧
        ti2.id = ln.id ∧ ti2.transaction_id = ln.transaction_id ∧
        ti2.item_id = ln.item_id ∧ ti2.created_at = now ∧
        totalInvariant db2 tid ∧
        (∀ x ∈ db.transaction_items, tiMatches tid iid x = false →
          x ∈ db2.transaction_items)) ∧
    (db.transaction_items.find? (tiMatches tid iid) = none →
      update_transaction_item db tid iid dto now = (db, .error .NotFound)) := by
  constructor
  · intro ln hln
    refine ⟨update_transaction_total (tiUpdateWrite db tid iid dto item.price now) tid now,
      tiRewrite dto item.price now ln, ?_, rfl, rfl, rfl, rfl, rfl, rfl, rfl,
      update_transaction_total_invariant _ _ _, ?_⟩
    · simp [update_transaction_item, hopen, hitem, hstock, hln]
    · intro x hx hnx
      rw [update_transaction_total_items]
      exact List.mem_map.mpr ⟨x, hx, by rw [hnx]; simp⟩
  · intro hnone
    have hmap : db.transaction_items.map
        (fun ti => if tiMatches tid iid ti then tiRewrite dto item.price now ti else ti) =
        db.transaction_items := by
      apply map_noop
      intro a ha
      have h2 := List.find?_eq_none.mp hnone a ha
      simpa using h2
    have hw : tiUpdateWrite db tid iid dto item.price now = db := by
      unfold tiUpdateWrite
      rw [hmap]
    simp [update_transaction_item, hopen, hitem, hstock, hnone, hw]

/-- C8 witness: the amended theorem applied to the concrete line, showing the
re-snapshot and the refreshed created_at. -/
theorem update_transaction_item_spec_witness :
    findOpenTransaction wLineDb 1 = some wTx ∧
    findItem wLineDb 10 = some wItem ∧
    wItem.in_stock = true ∧
    wLineDb.transaction_items.find? (tiMatches 1 10) = some wLine ∧
    ∃ db2 ti2, update_transaction_item wLineDb 1 10 wUpdDto 5 = (db2, .ok ti2) ∧
      ti2.quantity = wUpdDto.quantity ∧ ti2.unit_price = wItem.price ∧
      ti2.created_at = 5 := by
  refine ⟨rfl, rfl, rfl, rfl, ?_⟩
  obtain ⟨db2, ti2, heq, hq, hu, -, -, -, -, hc, -, -⟩ :=
    (update_transaction_item_spec wLineDb 1 10 wUpdDto 5 wTx wItem rfl rfl rfl).1 wLine rfl
  exact ⟨db2, ti2, heq, hq, hu, hc⟩

/-! ### C9 -/

/-- C9: the code loses the close/add-item race.  Starting from the concrete
database with one open empty transaction: add-item's open-status guard passes;
a concurrent close then commits (its settlement UPDATE has no status guard and
add-item's INSERT is unconditional); running the remainder of add-item against
the closed state also succeeds; the final state has a TransactionItem attached
to a transaction whose status is "closed", and both operations reported
success — contradicting "exactly one of the two succeeds" and "no line is
ever attached to a closed transaction". -/
theorem close_add_item_race_both_succeed :
    findOpenTransaction wDb 1 = some wTx ∧
    ((close_transaction wDb 1 { paid_amount := 0 } 2 wEmission).2.map
      (fun r => r.transaction.status)) = Except.ok "closed" ∧
    ((add_transaction_item_rest (close_transaction wDb 1 { paid_amount := 0 } 2 wEmission).1
        1 { item_id := 10, quantity := 1 } 99 3).2.map
      (fun ti => ti.transaction_id)) = Except.ok 1 ∧
    ((add_transaction_item_rest (close_transaction wDb 1 { paid_amount := 0 } 2 wEmission).1
        1 { item_id := 10, quantity := 1 } 99 3).1.transactions.map
      (fun t => t.status)) = ["closed"] ∧
    ((add_transaction_item_rest (close_transaction wDb 1 { paid_amount := 0 } 2 wEmission).1
        1 { item_id := 10, quantity := 1 } 99 3).1.transaction_items.map
      (fun ti => ti.transaction_id)) = [1] :=
  ⟨rfl, rfl, rfl, rfl, rfl⟩

/-! ### C10 -/

/-- C10: no quantity validation exists — for every i32 quantity, including
zero and negative values, add-item on an open transaction with an existing
in-stock item succeeds, stores exactly that quantity with
total_price = price × quantity, and the transaction total absorbs it; and
update-item on an existing line likewise accepts any quantity. -/
theorem unvalidated_quantity_accepted (db : Db) (tid : Nat)
    (dto : AddTransactionItemDto) (newId now : Nat) (t : Transaction) (item : Item)
    (hopen : findOpenTransaction db tid = some t)
    (hitem : findItem db dto.item_id = some item)
    (hstock : item.in_stock = true) :
    (∃ db1 ti, add_transaction_item db tid dto newId now = (db1, .ok ti) ∧
      ti.quantity = dto.quantity ∧ ti.unit_price = item.price ∧
      ti.total_price = item.price * (dto.quantity : Rat) ∧
      ti ∈ db1.transaction_items ∧ totalInvariant db1 tid) ∧
    (∀ ln, db.transaction_items.find? (tiMatches tid dto.item_id) = some ln →
      ∃ db2 ti2, update_transaction_item db tid dto.item_id
          { item_id := dto.item_id, quantity := dto.quantity } now = (db2, .ok ti2) ∧
        ti2.quantity = dto.quantity ∧
        ti2.total_price = item.price * (dto.quantity : Rat) ∧
        totalInvariant db2 tid) := by
  constructor
  · refine ⟨update_transaction_total
        { db with transaction_items := db.transaction_items ++
            [mkTransactionItem tid dto item.price newId now] } tid now,
      mkTransactionItem tid dto item.price newId now,
      ?_, rfl, rfl, rfl, ?_, update_transaction_total_invariant _ _ _⟩
    · simp [add_transaction_item, add_transaction_item_rest, hopen, hitem, hstock]
    · rw [update_transaction_total_items]
      simp
  · intro ln hln
    refine ⟨update_transaction_total (tiUpdateWrite db tid dto.item_id
        { item_id := dto.item_id, quantity := dto.quantity } item.price now) tid now,
      tiRewrite { item_id := dto.item_id, quantity := dto.quantity } item.price now ln,
      ?_, rfl, rfl, update_transaction_total_invariant _ _ _⟩
    simp [update_transaction_item, hopen, hitem, hstock, hln]

/-- A concrete add-item request with a negative quantity. -/
def wNegDto : AddTransactionItemDto := { item_id := 10, quantity := -3 }

/-- C10 witness: adding quantity −3 of the concrete in-stock item succeeds
and stores quantity −3. -/
theorem unvalidated_quantity_accepted_witness :
    findOpenTransaction wDb 1 = some wTx ∧
    findItem wDb 10 = some wItem ∧
    wItem.in_stock = true ∧
    wNegDto.quantity = -3 ∧
    ∃ db1 ti, add_transaction_item wDb 1 wNegDto 123 4 = (db1, .ok ti) ∧
      ti.quantity = -3 ∧ ti ∈ db1.transaction_items := by
  refine ⟨rfl, rfl, rfl, by decide, ?_⟩
  obtain ⟨db1, ti, heq, hq, -, -, hmem, -⟩ :=
    (unvalidated_quantity_accepted wDb 1 wNegDto 123 4 wTx wItem rfl rfl rfl).1
  exact ⟨db1, ti, heq, by rw [hq]; rfl, hmem⟩

end RustPos
